import Mathlib

/-!
Verification of the legacy-field synchronizer and billing total checker of
the hospitalmanagement repository (`hospital/models.py`, `hospital/admin.py`).

The Django models are embedded shallowly: each model class becomes a
structure holding the Python-level attribute values, each overridden
`save` method becomes a pure function on that structure, and the admin
read-only diagnostic `calculate_total` becomes a pure function returning
its display value together with the (unmodified) record.  Decimal fields
are embedded as exact rationals; Python `float` is embedded as an exact
model of IEEE-754 binary64 round-to-nearest-even over the rationals
(adequate for the normal, non-overflowing range that 10-digit currency
decimals occupy).
-/

namespace Hospital

/-- A `django.contrib.auth.models.User` record as consumed by the models:
a numeric id plus first and last name (`models.py` accesses
`user.id`, `user.first_name`, `user.last_name`). -/
structure User where
  id : Nat
  first_name : String
  last_name : String
deriving DecidableEq

/-- A calendar date (value of a Django `DateField`). -/
structure Date where
  year : Nat
  month : Nat
  day : Nat
deriving DecidableEq

/-- A timestamp (value of a Django `DateTimeField`); `date` is the value
of Python's `datetime.date()`. -/
structure DateTime where
  date : Date
  hour : Nat
  minute : Nat
  second : Nat
deriving DecidableEq

/-- Python truthiness of a `datetime` instance: `datetime.datetime`
defines no `__bool__`/`__len__`, so every instance is truthy.  This models
the guard `if self.appointment_date:` in `Appointment.save`. -/
def DateTime.truthy (_ : DateTime) : Bool :=
  true

/-- `hospital.models.Doctor` (models.py lines 44-103): identity user plus
profile fields.  `profile_pic` is the optional upload path;
`consultation_fee` is a 2-place decimal embedded as an exact rational. -/
structure Doctor where
  user : User
  profile_pic : Option String
  address : String
  mobile : String
  department : String
  status : Bool
  qualifications : Option String
  experience_years : Nat
  consultation_fee : ℚ
deriving DecidableEq

/-- `Doctor.get_name` (models.py line 96): the f-string
`f"{self.user.first_name} {self.user.last_name}"`. -/
def Doctor.get_name (d : Doctor) : String :=
  d.user.first_name ++ " " ++ d.user.last_name

/-- `Doctor.get_id` (models.py line 100): `self.user.id`. -/
def Doctor.get_id (d : Doctor) : Nat :=
  d.user.id

/-- `hospital.models.Patient` (models.py lines 106-203).  The referenced
`assigned_doctor` row is embedded by value (`SET_NULL`, nullable), and the
deprecated legacy mirror `assignedDoctorId` is the nullable positive
integer of line 164. -/
structure Patient where
  user : User
  profile_pic : Option String
  address : String
  mobile : String
  symptoms : String
  assigned_doctor : Option Doctor
  admit_date : Date
  status : Bool
  blood_group : String
  date_of_birth : Option Date
  emergency_contact : String
  assignedDoctorId : Option Nat
deriving DecidableEq

/-- `Patient.get_name` (models.py line 187). -/
def Patient.get_name (p : Patient) : String :=
  p.user.first_name ++ " " ++ p.user.last_name

/-- `Patient.get_id` (models.py line 191). -/
def Patient.get_id (p : Patient) : Nat :=
  p.user.id

/-- `Patient.save` (models.py lines 179-183): when `assigned_doctor` is
set (a model instance is always truthy, `None` is falsy) the legacy
`assignedDoctorId` is overwritten with `self.assigned_doctor.user.id`;
otherwise the record is persisted unchanged. -/
def Patient.save (p : Patient) : Patient :=
  match p.assigned_doctor with
  | some d => { p with assignedDoctorId := some d.user.id }
  | none => p

/-- `hospital.models.Appointment` (models.py lines 206-265): nullable
references to `Patient` and `Doctor` (embedded by value), the canonical
`appointment_date` timestamp (non-nullable, `default=timezone.now`), and
the deprecated legacy mirrors of lines 236-240. -/
structure Appointment where
  patient : Option Patient
  doctor : Option Doctor
  appointment_date : DateTime
  description : String
  status : Bool
  patientId : Option Nat
  doctorId : Option Nat
  patientName : String
  doctorName : String
  appointmentDate : Option Date
deriving DecidableEq

/-- `Appointment.save` (models.py lines 252-262): copy patient id/name
when `patient` is set, doctor id/name when `doctor` is set, and the date
part of `appointment_date` (guarded by `if self.appointment_date:`, which
holds for every datetime instance). -/
def Appointment.save (a : Appointment) : Appointment :=
  let a1 :=
    match a.patient with
    | some p => { a with patientId := some p.user.id, patientName := p.get_name }
    | none => a
  let a2 :=
    match a1.doctor with
    | some d => { a1 with doctorId := some d.user.id, doctorName := d.get_name }
    | none => a1
  if a2.appointment_date.truthy then
    { a2 with appointmentDate := some a2.appointment_date.date }
  else
    a2

/-- `Appointment.__str__` (models.py lines 264-265):
`f"{self.patient.get_name} -> {self.doctor.get_name} on {self.appointment_date}"`.
Accessing `get_name` on a `None` reference raises `AttributeError`, which
the embedding records as `none`. -/
def Appointment.str (a : Appointment) : Option String :=
  match a.patient, a.doctor with
  | some p, some d =>
      some (p.get_name ++ " -> " ++ d.get_name ++ " on " ++
        toString a.appointment_date.date.year ++ "-" ++
        toString a.appointment_date.date.month ++ "-" ++
        toString a.appointment_date.date.day)
  | _, _ => none

/-- Python `int()` applied to a (2-place decimal) number: truncation
toward zero. -/
def pyInt (q : ℚ) : ℤ :=
  if 0 ≤ q then ⌊q⌋ else ⌈q⌉

/-- Declared `max_length` of the legacy `symptoms` mirror
(`models.py` line 319: `models.CharField(max_length=500, ...)`). -/
def dischargeSymptomsMaxLength : Nat :=
  500

/-- `hospital.models.PatientDischargeDetails` (models.py lines 268-353):
nullable references to `Patient` and `Doctor` embedded by value, the
canonical stay/charge fields, and the deprecated legacy mirrors of lines
314-326.  `pk` is the primary key assigned by the store on first save
(`None` before the record is persisted); the legacy integer charge
mirrors hold whatever integer Python assigned, hence `Option ℤ`. -/
structure PatientDischargeDetails where
  pk : Option Nat
  patient : Option Patient
  assigned_doctor : Option Doctor
  admit_date : Date
  release_date : Date
  day_spent : Nat
  room_charge : ℚ
  medicine_cost : ℚ
  doctor_fee : ℚ
  other_charge : ℚ
  total : ℚ
  patientId : Option Nat
  patientName : String
  assignedDoctorName : String
  address : String
  mobile : String
  symptoms : String
  admitDate : Option Date
  releaseDate : Option Date
  daySpent : Option Nat
  roomCharge : Option ℤ
  medicineCost : Option ℤ
  doctorFee : Option ℤ
  OtherCharge : Option ℤ
deriving DecidableEq

/-- Fuel-driven binary logarithm on `ℕ`: `log2fuel f n` counts how often
`n` can be halved before dropping below `2`, provided the fuel `f` does
not run out first.  With `f = n` the fuel always suffices. -/
def log2fuel : ℕ → ℕ → ℕ
  | 0, _ => 0
  | f + 1, n => if 2 ≤ n then log2fuel f (n / 2) + 1 else 0

/-- `natLog2 n` is `⌊log₂ n⌋` for `1 ≤ n` (and `0` at `0`). -/
def natLog2 (n : ℕ) : ℕ :=
  log2fuel n n

/-- `⌊log₂ q⌋` for a positive rational `q = a / b`: from
`2^α ≤ a < 2^(α+1)` and `2^β ≤ b < 2^(β+1)` the exponent is `α - β` when
`2^(α-β) ≤ a / b` and `α - β - 1` otherwise. -/
def floorLog2 (q : ℚ) : ℤ :=
  let a := q.num.natAbs
  let b := q.den
  let α := natLog2 a
  let β := natLog2 b
  if b * 2 ^ α ≤ a * 2 ^ β then (α : ℤ) - β else (α : ℤ) - β - 1

/-- Round the fraction `a / b` (with `0 < b`) to the nearest integer,
ties to even: the rounding rule of IEEE-754 binary64 arithmetic.  Using
the floor division `Int.fdiv`, the remainder `a - n * b` lies in
`[0, b)`, so comparing its double against `b` decides between the floor,
the ceiling, and the tie. -/
def rneDiv (a b : ℤ) : ℤ :=
  let n := Int.fdiv a b
  let r := a - n * b
  if 2 * r < b then n
  else if b < 2 * r then n + 1
  else if n % 2 = 0 then n else n + 1

/-- The exact value of the IEEE-754 binary64 double nearest to a rational
`q` in the normal range: the significand is `q` scaled by a power of two
into `[2^52, 2^53)` and rounded to nearest, ties to even.  This is the
exact model of Python's `float(...)` conversion and of the result of each
arithmetic operation on `float`s (for values that neither overflow nor
fall into the subnormal range — 10-digit, 2-place currency decimals and
their four-term sums are all far inside that range). -/
def roundToDouble (q : ℚ) : ℚ :=
  if q = 0 then 0
  else
    let k := (52 : ℤ) - floorLog2 q
    if 0 ≤ k then
      (rneDiv (q.num * (2 ^ k.toNat : ℕ)) q.den : ℚ) / ((2 ^ k.toNat : ℕ) : ℚ)
    else
      (rneDiv q.num (q.den * (2 ^ (-k).toNat : ℕ)) : ℚ) * ((2 ^ (-k).toNat : ℕ) : ℚ)

/-- Python `float` addition: the exact sum, rounded back to binary64. -/
def fadd (x y : ℚ) : ℚ :=
  roundToDouble (x + y)

/-- The tri-state display value of the admin billing diagnostic:
`notEvaluable` renders as `'-'`, `correct` as the green check with the
calculated float sum, `mismatch` as the red warning carrying the stated
(decimal) total and the calculated float sum. -/
inductive TotalVerification where
  | notEvaluable : TotalVerification
  | correct (calculated : ℚ) : TotalVerification
  | mismatch (stated : ℚ) (calculated : ℚ) : TotalVerification
deriving DecidableEq

/-- `PatientDischargeDetailsAdmin.calculate_total` (admin.py lines
123-131): when the record has a primary key, convert the four decimal
charge components to `float`, sum them left to right in `float`
arithmetic, and compare with `float(obj.total)`; otherwise render `'-'`.
The function returns the display value together with the record, which it
never modifies. -/
def calculate_total (obj : PatientDischargeDetails) :
    TotalVerification × PatientDischargeDetails :=
  match obj.pk with
  | some _ =>
      let calculated :=
        fadd (fadd (fadd (roundToDouble obj.room_charge)
          (roundToDouble obj.medicine_cost))
          (roundToDouble obj.doctor_fee))
          (roundToDouble obj.other_charge)
      if calculated = roundToDouble obj.total then
        (TotalVerification.correct calculated, obj)
      else
        (TotalVerification.mismatch obj.total calculated, obj)
  | none => (TotalVerification.notEvaluable, obj)

/-- The expected total that `calculate_total` computes: the four decimal
charge components converted to `float` and summed left to right in
`float` arithmetic
(`float(obj.room_charge) + float(obj.medicine_cost) + float(obj.doctor_fee) + float(obj.other_charge)`). -/
def checkerExpected (obj : PatientDischargeDetails) : ℚ :=
  fadd (fadd (fadd (roundToDouble obj.room_charge) (roundToDouble obj.medicine_cost))
    (roundToDouble obj.doctor_fee)) (roundToDouble obj.other_charge)

/-- `PatientDischargeDetails.save` (models.py lines 333-350): copy the
patient mirror fields when `patient` is set, the doctor name when
`assigned_doctor` is set, then unconditionally recompute the date, day
and truncated integer charge mirrors. -/
def PatientDischargeDetails.save (r : PatientDischargeDetails) : PatientDischargeDetails :=
  let r1 :=
    match r.patient with
    | some p =>
        { r with
          patientId := some p.user.id
          patientName := p.get_name
          address := p.address
          mobile := p.mobile
          symptoms := p.symptoms }
    | none => r
  let r2 :=
    match r1.assigned_doctor with
    | some d => { r1 with assignedDoctorName := d.get_name }
    | none => r1
  { r2 with
    admitDate := some r2.admit_date
    releaseDate := some r2.release_date
    daySpent := some r2.day_spent
    roomCharge := some (pyInt r2.room_charge)
    medicineCost := some (pyInt r2.medicine_cost)
    doctorFee := some (pyInt r2.doctor_fee)
    OtherCharge := some (pyInt r2.other_charge) }

/-! Concrete sample records, mirroring the fixture data of
`verify_fixes.py` and the scenario of spec §8 (doctor id 7 named "A B"). -/

/-- Identity record of the sample doctor: id 7, name "A B". -/
def docUser : User :=
  { id := 7, first_name := "A", last_name := "B" }

/-- Identity record of the sample patient: id 9, name "C D". -/
def patUser : User :=
  { id := 9, first_name := "C", last_name := "D" }

/-- A sample approved doctor, per the fixture in `verify_fixes.py`. -/
def sampleDoctor : Doctor :=
  { user := docUser
    profile_pic := none
    address := "123 Doc St"
    mobile := "1234567890"
    department := "Cardiologist"
    status := true
    qualifications := none
    experience_years := 0
    consultation_fee := 0 }

/-- A sample patient assigned to `sampleDoctor`, legacy field unset. -/
def samplePatient : Patient :=
  { user := patUser
    profile_pic := none
    address := "456 Pat St"
    mobile := "0987654321"
    symptoms := "Fever"
    assigned_doctor := some sampleDoctor
    admit_date := { year := 2026, month := 10, day := 1 }
    status := true
    blood_group := "O+"
    date_of_birth := none
    emergency_contact := ""
    assignedDoctorId := none }

/-- A sample appointment referencing both `samplePatient` and
`sampleDoctor`, legacy fields unset. -/
def sampleAppointment : Appointment :=
  { patient := some samplePatient
    doctor := some sampleDoctor
    appointment_date :=
      { date := { year := 2026, month := 10, day := 12 }
        hour := 9, minute := 30, second := 0 }
    description := "Checkup"
    status := true
    patientId := none
    doctorId := none
    patientName := ""
    doctorName := ""
    appointmentDate := none }

/-- A patient whose doctor reference has been cleared while the legacy
mirror still holds the stale id 7. -/
def unassignedPatient : Patient :=
  { samplePatient with assigned_doctor := none, assignedDoctorId := some 7 }

/-- An appointment whose patient reference is null while the doctor is
still set, with stale patient legacy values. -/
def patientlessAppointment : Appointment :=
  { sampleAppointment with
    patient := none
    patientId := some 9
    patientName := "C D" }

/-- An appointment whose doctor reference is null while the patient is
still set, with stale doctor legacy values. -/
def doctorlessAppointment : Appointment :=
  { sampleAppointment with
    doctor := none
    doctorId := some 7
    doctorName := "A B" }

/-- A persisted discharge record with charges 0.10 + 0.10 + 0.10 + 0.00
and stated total 0.30: the components sum to the stated total exactly in
decimal arithmetic. -/
def driftDischarge : PatientDischargeDetails :=
  { pk := some 1
    patient := none
    assigned_doctor := none
    admit_date := { year := 2026, month := 10, day := 1 }
    release_date := { year := 2026, month := 10, day := 4 }
    day_spent := 3
    room_charge := 1 / 10
    medicine_cost := 1 / 10
    doctor_fee := 1 / 10
    other_charge := 0
    total := 3 / 10
    patientId := none
    patientName := ""
    assignedDoctorName := ""
    address := ""
    mobile := ""
    symptoms := ""
    admitDate := none
    releaseDate := none
    daySpent := none
    roomCharge := none
    medicineCost := none
    doctorFee := none
    OtherCharge := none }

/-- A persisted discharge record with integer charges 100 + 50 + 200 + 10
and stated total 360, per the fixture in `verify_fixes.py`. -/
def integerDischarge : PatientDischargeDetails :=
  { driftDischarge with
    room_charge := ((100 : ℕ) : ℚ)
    medicine_cost := ((50 : ℕ) : ℚ)
    doctor_fee := ((200 : ℕ) : ℚ)
    other_charge := ((10 : ℕ) : ℚ)
    total := ((360 : ℕ) : ℚ) }

/-- A discharge record whose patient reference is null while the doctor
is still set, with stale patient legacy values. -/
def patientlessDischarge : PatientDischargeDetails :=
  { driftDischarge with
    assigned_doctor := some sampleDoctor
    patientId := some 9
    patientName := "C D"
    address := "456 Pat St"
    mobile := "0987654321"
    symptoms := "Fever" }

/-- A discharge record whose doctor reference was cleared (`SET_NULL`)
while the patient remains set, with the stale doctor name still in the
legacy mirror. -/
def doctorlessDischarge : PatientDischargeDetails :=
  { driftDischarge with
    patient := some samplePatient
    assignedDoctorName := "A B" }

/-- A patient whose symptoms text is 501 characters long, exceeding the
500-character bound declared on the legacy discharge mirror field. -/
def longSymptomsPatient : Patient :=
  { samplePatient with symptoms := String.mk (List.replicate 501 'a') }

/-- A discharge record referencing `longSymptomsPatient`. -/
def longSymptomsDischarge : PatientDischargeDetails :=
  { driftDischarge with patient := some longSymptomsPatient }

/-! Auxiliary lemmas about the binary-logarithm and rounding helpers. -/

/-- Bounds for the fuel-driven binary logarithm: with enough fuel,
`2 ^ log2fuel f n ≤ n < 2 ^ (log2fuel f n + 1)` for `1 ≤ n`. -/
theorem log2fuel_spec :
    ∀ f n : ℕ, 1 ≤ n → n ≤ f → 2 ^ log2fuel f n ≤ n ∧ n < 2 ^ (log2fuel f n + 1) := by
  intro f
  induction f with
  | zero => intro n h1 h2; omega
  | succ f ih =>
      intro n h1 h2
      by_cases h : 2 ≤ n
      · have hd1 : 1 ≤ n / 2 := by omega
        have hd2 : n / 2 ≤ f := by omega
        obtain ⟨ih1, ih2⟩ := ih (n / 2) hd1 hd2
        simp only [log2fuel, if_pos h]
        constructor
        · calc 2 ^ (log2fuel f (n / 2) + 1) = 2 * 2 ^ log2fuel f (n / 2) := by ring
          _ ≤ 2 * (n / 2) := Nat.mul_le_mul_left 2 ih1
          _ ≤ n := by omega
        · have : n < 2 ^ (log2fuel f (n / 2) + 1) * 2 :=
            (Nat.div_lt_iff_lt_mul (by norm_num)).mp ih2
          calc n < 2 ^ (log2fuel f (n / 2) + 1) * 2 := this
          _ = 2 ^ (log2fuel f (n / 2) + 1 + 1) := by ring
      · simp only [log2fuel, if_neg h]
        omega

/-- `natLog2` satisfies the defining bounds of `⌊log₂⌋` on `1 ≤ n`. -/
theorem natLog2_spec (n : ℕ) (h : 1 ≤ n) :
    2 ^ natLog2 n ≤ n ∧ n < 2 ^ (natLog2 n + 1) :=
  log2fuel_spec n n h le_rfl

/-- `natLog2 n < m` whenever `1 ≤ n < 2 ^ m`. -/
theorem natLog2_lt_of_lt_pow {n m : ℕ} (h1 : 1 ≤ n) (h2 : n < 2 ^ m) :
    natLog2 n < m :=
  (Nat.pow_lt_pow_iff_right (by norm_num)).mp
    (lt_of_le_of_lt (natLog2_spec n h1).1 h2)

/-- On a natural number the rational binary logarithm agrees with
`natLog2`. -/
theorem floorLog2_natCast (n : ℕ) (h : 1 ≤ n) :
    floorLog2 (n : ℚ) = natLog2 n := by
  simp only [floorLog2, Rat.num_natCast, Rat.den_natCast, Int.natAbs_ofNat]
  have hβ : natLog2 1 = 0 := rfl
  rw [hβ]
  have hcond : 1 * 2 ^ natLog2 n ≤ n * 2 ^ 0 := by
    simpa using (natLog2_spec n h).1
  rw [if_pos hcond]
  simp

/-- Rounding an integer (denominator 1) is exact. -/
theorem rneDiv_one (a : ℤ) : rneDiv a 1 = a := by
  simp [rneDiv, Int.fdiv_one]

/-- Binary64 conversion is exact on natural numbers below `2 ^ 53`. -/
theorem roundToDouble_natCast (n : ℕ) (h : n < 2 ^ 53) :
    roundToDouble (n : ℚ) = n := by
  rcases Nat.eq_zero_or_pos n with h0 | h1
  · subst h0; simp [roundToDouble]
  · have hq : ((n : ℚ)) ≠ 0 := Nat.cast_ne_zero.mpr (by omega)
    have hα : natLog2 n < 53 := natLog2_lt_of_lt_pow h1 h
    have hk : (0 : ℤ) ≤ 52 - (natLog2 n : ℤ) := by omega
    have htn : ((52 : ℤ) - (natLog2 n : ℤ)).toNat = 52 - natLog2 n := by omega
    simp only [roundToDouble, floorLog2_natCast n h1]
    rw [if_neg hq, if_pos hk, htn, Rat.num_natCast, Rat.den_natCast]
    rw [show ((1 : ℕ) : ℤ) = 1 from rfl, rneDiv_one]
    push_cast
    rw [mul_div_assoc, div_self (by positivity), mul_one]

/-- Binary64 addition is exact on natural numbers whose sum stays below
`2 ^ 53`. -/
theorem fadd_natCast (m n : ℕ) (h : m + n < 2 ^ 53) :
    fadd (m : ℚ) (n : ℚ) = ((m + n : ℕ) : ℚ) :=
  by rw [fadd, ← Nat.cast_add, roundToDouble_natCast _ h]

/-! Claims. -/

/-- C1 (counterexample): the discharge record with charge components
0.10, 0.10, 0.10, 0.00 and stated total 0.30 sums exactly to its stated
total under exact decimal arithmetic, yet the checker — which works in
binary64 floating point, not fixed-point decimal — reports a mismatch
rather than a match, because
`float(0.10) + float(0.10) + float(0.10) + float(0.00) ≠ float(0.30)`. -/
theorem calculate_total_float_drift_counterexample :
    driftDischarge.room_charge + driftDischarge.medicine_cost +
        driftDischarge.doctor_fee + driftDischarge.other_charge = driftDischarge.total ∧
    (calculate_total driftDischarge).1 =
      TotalVerification.mismatch driftDischarge.total (checkerExpected driftDischarge) := by
  constructor
  · show (1 / 10 : ℚ) + 1 / 10 + 1 / 10 + 0 = 3 / 10
    norm_num
  · have hne : checkerExpected driftDischarge ≠ roundToDouble driftDischarge.total := by
      with_unfolding_all decide
    have hpk : driftDischarge.pk = some 1 := rfl
    simp only [calculate_total, checkerExpected, hpk] at hne ⊢
    rw [if_neg hne]

/-- C1 (amended): the Billing Total Checker computes
`expected = room_charge + medicine_cost + doctor_fee + other_charge` in
binary64 floating-point arithmetic, not fixed-point decimal; exact
decimal equality of the components with the stated total guarantees a
reported match only when all five values are exactly representable, in
particular whenever they are integer-valued and below `2 ^ 53`. -/
theorem calculate_total_integer_exact (obj : PatientDischargeDetails) (k : ℕ)
    (a b c d t : ℕ)
    (hpk : obj.pk = some k)
    (hr : obj.room_charge = (a : ℚ)) (hm : obj.medicine_cost = (b : ℚ))
    (hf : obj.doctor_fee = (c : ℚ)) (ho : obj.other_charge = (d : ℚ))
    (ht : obj.total = (t : ℚ))
    (hsum : a + b + c + d = t) (hlt : t < 2 ^ 53) :
    (calculate_total obj).1 = TotalVerification.correct (t : ℚ) := by
  have h1 : roundToDouble (a : ℚ) = a := roundToDouble_natCast a (by omega)
  have h2 : roundToDouble (b : ℚ) = b := roundToDouble_natCast b (by omega)
  have h3 : roundToDouble (c : ℚ) = c := roundToDouble_natCast c (by omega)
  have h4 : roundToDouble (d : ℚ) = d := roundToDouble_natCast d (by omega)
  have h5 : fadd (a : ℚ) (b : ℚ) = ((a + b : ℕ) : ℚ) := fadd_natCast a b (by omega)
  have h6 : fadd ((a + b : ℕ) : ℚ) (c : ℚ) = ((a + b + c : ℕ) : ℚ) :=
    fadd_natCast (a + b) c (by omega)
  have h7 : fadd ((a + b + c : ℕ) : ℚ) (d : ℚ) = ((a + b + c + d : ℕ) : ℚ) :=
    fadd_natCast (a + b + c) d (by omega)
  have h8 : roundToDouble ((t : ℕ) : ℚ) = (t : ℚ) := roundToDouble_natCast t hlt
  simp only [calculate_total, hpk, hr, hm, hf, ho, ht, h1, h2, h3, h4, h5, h6, h7, hsum, h8]
  simp

/-- C1 (witness): the integer-valued fixture of `verify_fixes.py` —
charges 100, 50, 200, 10 with stated total 360 — satisfies the
hypotheses, and the checker reports a match on it. -/
theorem calculate_total_integer_exact_witness :
    100 + 50 + 200 + 10 = 360 ∧ (360 : ℕ) < 2 ^ 53 ∧
    (calculate_total integerDischarge).1 = TotalVerification.correct ((360 : ℕ) : ℚ) :=
  ⟨by decide, by decide,
    calculate_total_integer_exact integerDischarge 1 100 50 200 10 360
      rfl rfl rfl rfl rfl rfl (by decide) (by decide)⟩

/-- C2: for every Patient whose `assigned_doctor` reference is non-null,
after a save the legacy field `assignedDoctorId` equals the assigned
doctor's identity (user) id. -/
theorem patient_save_syncs_assignedDoctorId (p : Patient) (d : Doctor)
    (h : p.assigned_doctor = some d) :
    p.save.assignedDoctorId = some d.user.id := by
  simp [Patient.save, h]

/-- C2 (witness): saving `samplePatient`, assigned to the doctor with
user id 7, sets its legacy `assignedDoctorId` to 7. -/
theorem patient_save_syncs_assignedDoctorId_witness :
    samplePatient.save.assignedDoctorId = some 7 :=
  patient_save_syncs_assignedDoctorId samplePatient sampleDoctor rfl

/-- C3: for every Appointment with both `patient` and `doctor` set, after
a save the legacy fields `patientId` and `doctorId` equal the referenced
records' identity ids, and `patientName` and `doctorName` equal the
referenced identity's first and last name joined by a single space. -/
theorem appointment_save_syncs_legacy_refs (a : Appointment) (p : Patient) (d : Doctor)
    (hp : a.patient = some p) (hd : a.doctor = some d) :
    a.save.patientId = some p.user.id ∧
    a.save.doctorId = some d.user.id ∧
    a.save.patientName = p.user.first_name ++ " " ++ p.user.last_name ∧
    a.save.doctorName = d.user.first_name ++ " " ++ d.user.last_name := by
  simp [Appointment.save, hp, hd, Patient.get_name, Doctor.get_name, DateTime.truthy]

/-- C3 (witness): saving `sampleAppointment` (patient id 9 "C D", doctor
id 7 "A B") fills all four legacy reference mirrors. -/
theorem appointment_save_syncs_legacy_refs_witness :
    sampleAppointment.save.patientId = some 9 ∧
    sampleAppointment.save.doctorId = some 7 ∧
    sampleAppointment.save.patientName = "C D" ∧
    sampleAppointment.save.doctorName = "A B" :=
  appointment_save_syncs_legacy_refs sampleAppointment samplePatient sampleDoctor rfl rfl

/-- C4: after a save of a discharge record, each of the four integer
legacy charge fields equals the corresponding canonical decimal charge
passed through Python `int()`, which truncates toward zero — the floor
for nonnegative values, the ceiling for negative ones, and in particular
100.75 becomes 100 (not 101) and -100.75 becomes -100. -/
theorem discharge_save_truncates_charges :
    (∀ r : PatientDischargeDetails,
      r.save.roomCharge = some (pyInt r.room_charge) ∧
      r.save.medicineCost = some (pyInt r.medicine_cost) ∧
      r.save.doctorFee = some (pyInt r.doctor_fee) ∧
      r.save.OtherCharge = some (pyInt r.other_charge)) ∧
    (∀ q : ℚ, 0 ≤ q → pyInt q = ⌊q⌋) ∧
    (∀ q : ℚ, q < 0 → pyInt q = ⌈q⌉) ∧
    pyInt (403 / 4) = 100 ∧ pyInt (-(403 / 4)) = -100 := by
  refine ⟨fun r => ?_, fun q hq => ?_, fun q hq => ?_, ?_, ?_⟩
  · cases hp : r.patient <;> cases hd : r.assigned_doctor <;>
      simp [PatientDischargeDetails.save, hp, hd]
  · simp [pyInt, hq]
  · simp [pyInt, not_le.mpr hq]
  · with_unfolding_all decide
  · with_unfolding_all decide

/-- C4 (witness): instantiated on the record with charges 0.10 each —
the truncated mirrors are written on save — and on the nonnegative
rational 3, where `pyInt` is the floor. -/
theorem discharge_save_truncates_charges_witness :
    driftDischarge.save.roomCharge = some (pyInt driftDischarge.room_charge) ∧
    (0 : ℚ) ≤ 3 ∧ pyInt (3 : ℚ) = ⌊(3 : ℚ)⌋ :=
  ⟨(discharge_save_truncates_charges.1 driftDischarge).1, by decide,
    discharge_save_truncates_charges.2.1 3 (by decide)⟩

/-- C5: for every Appointment, after a save the legacy field
`appointmentDate` equals the date component of the canonical
`appointment_date` timestamp, unconditionally — no hypothesis on the
record is required. -/
theorem appointment_save_copies_date (a : Appointment) :
    a.save.appointmentDate = some a.appointment_date.date := by
  cases hp : a.patient <;> cases hd : a.doctor <;>
    simp [Appointment.save, hp, hd, DateTime.truthy]

/-- C6: saving a record with a null reference field succeeds (the save
functions are total) and leaves the legacy fields mirroring that
reference at their prior values — they are not reset to null.  Each
reference is treated independently: a null reference is skipped
regardless of whether the record's other reference is set. -/
theorem null_reference_skip_preserves_legacy :
    (∀ p : Patient, p.assigned_doctor = none → p.save = p) ∧
    (∀ a : Appointment, a.patient = none →
      a.save.patientId = a.patientId ∧ a.save.patientName = a.patientName) ∧
    (∀ a : Appointment, a.doctor = none →
      a.save.doctorId = a.doctorId ∧ a.save.doctorName = a.doctorName) ∧
    (∀ r : PatientDischargeDetails, r.patient = none →
      r.save.patientId = r.patientId ∧ r.save.patientName = r.patientName ∧
      r.save.address = r.address ∧ r.save.mobile = r.mobile ∧
      r.save.symptoms = r.symptoms) ∧
    (∀ r : PatientDischargeDetails, r.assigned_doctor = none →
      r.save.assignedDoctorName = r.assignedDoctorName) := by
  refine ⟨fun p hp => ?_, fun a hap => ?_, fun a had => ?_,
    fun r hrp => ?_, fun r hrd => ?_⟩
  · simp [Patient.save, hp]
  · cases hd : a.doctor <;> simp [Appointment.save, hap, hd, DateTime.truthy]
  · cases hp : a.patient <;> simp [Appointment.save, had, hp, DateTime.truthy]
  · cases hd : r.assigned_doctor <;> simp [PatientDischargeDetails.save, hrp, hd]
  · cases hp : r.patient <;> simp [PatientDischargeDetails.save, hrd, hp]

/-- C6 (witness): concrete records with one reference cleared — the
other still set, the mixed case — keep their stale legacy values across
a save: a patient with no doctor, appointments missing only one
reference, a discharge missing only its patient, and a discharge whose
doctor was cleared by `SET_NULL` while its patient remains. -/
theorem null_reference_skip_preserves_legacy_witness :
    unassignedPatient.save = unassignedPatient ∧
    patientlessAppointment.save.patientId = patientlessAppointment.patientId ∧
    patientlessAppointment.save.patientName = patientlessAppointment.patientName ∧
    doctorlessAppointment.save.doctorId = doctorlessAppointment.doctorId ∧
    doctorlessAppointment.save.doctorName = doctorlessAppointment.doctorName ∧
    patientlessDischarge.save.patientId = patientlessDischarge.patientId ∧
    patientlessDischarge.save.patientName = patientlessDischarge.patientName ∧
    patientlessDischarge.save.address = patientlessDischarge.address ∧
    patientlessDischarge.save.mobile = patientlessDischarge.mobile ∧
    patientlessDischarge.save.symptoms = patientlessDischarge.symptoms ∧
    doctorlessDischarge.save.assignedDoctorName = doctorlessDischarge.assignedDoctorName :=
  ⟨null_reference_skip_preserves_legacy.1 unassignedPatient rfl,
    (null_reference_skip_preserves_legacy.2.1 patientlessAppointment rfl).1,
    (null_reference_skip_preserves_legacy.2.1 patientlessAppointment rfl).2,
    (null_reference_skip_preserves_legacy.2.2.1 doctorlessAppointment rfl).1,
    (null_reference_skip_preserves_legacy.2.2.1 doctorlessAppointment rfl).2,
    (null_reference_skip_preserves_legacy.2.2.2.1 patientlessDischarge rfl).1,
    (null_reference_skip_preserves_legacy.2.2.2.1 patientlessDischarge rfl).2.1,
    (null_reference_skip_preserves_legacy.2.2.2.1 patientlessDischarge rfl).2.2.1,
    (null_reference_skip_preserves_legacy.2.2.2.1 patientlessDischarge rfl).2.2.2.1,
    (null_reference_skip_preserves_legacy.2.2.2.1 patientlessDischarge rfl).2.2.2.2,
    null_reference_skip_preserves_legacy.2.2.2.2 doctorlessDischarge rfl⟩

/-- C7: the checker's display value is tri-state — `'-'` exactly when the
record has no primary key, a match exactly when the float expected sum
equals the float of the stated total, and otherwise a mismatch carrying
the stated total and the expected sum — and the checker returns the
record unmodified (it is a read-only diagnostic). -/
theorem calculate_total_tri_state (obj : PatientDischargeDetails) :
    (calculate_total obj).2 = obj ∧
    ((calculate_total obj).1 = TotalVerification.notEvaluable ↔ obj.pk = none) ∧
    ((calculate_total obj).1 = TotalVerification.correct (checkerExpected obj) ↔
      (obj.pk ≠ none ∧ checkerExpected obj = roundToDouble obj.total)) ∧
    ((calculate_total obj).1 = TotalVerification.mismatch obj.total (checkerExpected obj) ↔
      (obj.pk ≠ none ∧ checkerExpected obj ≠ roundToDouble obj.total)) := by
  cases hpk : obj.pk with
  | none => simp [calculate_total, hpk]
  | some k =>
      by_cases hc : checkerExpected obj = roundToDouble obj.total <;>
        simp [calculate_total, checkerExpected, hpk, hc] at * <;> simp_all [checkerExpected]

/-- C7 (witness): on the persisted drift record the checker leaves the
record unchanged and does not render the not-yet-persisted marker. -/
theorem calculate_total_tri_state_witness :
    (calculate_total driftDischarge).2 = driftDischarge ∧
    ((calculate_total driftDischarge).1 = TotalVerification.notEvaluable ↔
      driftDischarge.pk = none) :=
  ⟨(calculate_total_tri_state driftDischarge).1,
    (calculate_total_tri_state driftDischarge).2.1⟩

/-- C8: the Legacy Field Synchronizer is idempotent — saving an already
saved record again produces an identical record, in particular identical
legacy field values, for each of the three synchronized models. -/
theorem save_idempotent :
    (∀ p : Patient, p.save.save = p.save) ∧
    (∀ a : Appointment, a.save.save = a.save) ∧
    (∀ r : PatientDischargeDetails, r.save.save = r.save) := by
  refine ⟨fun p => ?_, fun a => ?_, fun r => ?_⟩
  · cases h : p.assigned_doctor <;> simp [Patient.save, h]
  · cases hp : a.patient <;> cases hd : a.doctor <;>
      simp [Appointment.save, hp, hd, DateTime.truthy]
  · cases hp : r.patient <;> cases hd : r.assigned_doctor <;>
      simp [PatientDischargeDetails.save, hp, hd]

/-- C9: rendering an appointment's string representation dereferences
both nullable references — it is defined exactly when both `patient` and
`doctor` are present, and raises (modelled as `none`) whenever either
reference is null. -/
theorem appointment_str_defined_iff_refs_present (a : Appointment) :
    a.str.isSome ↔ (a.patient.isSome ∧ a.doctor.isSome) := by
  cases hp : a.patient <;> cases hd : a.doctor <;> simp [Appointment.str, hp, hd]

/-- C10: the discharge synchronizer copies the referenced patient's
unbounded symptoms text verbatim into the legacy mirror declared with
`max_length=500`, and for a patient whose symptoms run 501 characters the
synced value exceeds that declared bound. -/
theorem discharge_symptoms_copied_unbounded :
    (∀ (r : PatientDischargeDetails) (p : Patient),
      r.patient = some p → r.save.symptoms = p.symptoms) ∧
    (∃ (r : PatientDischargeDetails) (p : Patient),
      r.patient = some p ∧
      dischargeSymptomsMaxLength < p.symptoms.length ∧
      dischargeSymptomsMaxLength < r.save.symptoms.length) := by
  have hcopy : ∀ (r : PatientDischargeDetails) (p : Patient),
      r.patient = some p → r.save.symptoms = p.symptoms := by
    intro r p h
    cases hd : r.assigned_doctor <;> simp [PatientDischargeDetails.save, h, hd]
  have hlen : longSymptomsPatient.symptoms.length = 501 := by
    show (String.mk (List.replicate 501 'a')).length = 501
    rw [String.length_mk, List.length_replicate]
  refine ⟨hcopy, longSymptomsDischarge, longSymptomsPatient, rfl, ?_, ?_⟩
  · rw [hlen]; norm_num [dischargeSymptomsMaxLength]
  · rw [hcopy longSymptomsDischarge longSymptomsPatient rfl, hlen]
    norm_num [dischargeSymptomsMaxLength]

/-- C10 (witness): the 501-character symptoms text of
`longSymptomsPatient` is copied verbatim by the save. -/
theorem discharge_symptoms_copied_unbounded_witness :
    longSymptomsDischarge.save.symptoms = longSymptomsPatient.symptoms :=
  discharge_symptoms_copied_unbounded.1 longSymptomsDischarge longSymptomsPatient rfl

end Hospital
